import Mathlib

/-
  Shallow embedding of the Rules-Emerging-Pattern evaluation core.

  Python strings are modelled as lists of characters (`Str`), Python floats
  appearing as literal constants are modelled as rationals, Python ints as
  integers, and raised exceptions as `Except` errors.  Wall-clock driven
  fields of the source (timestamps, request ids, content hashes) are either
  omitted or passed as explicit parameters, as noted at each definition.
-/

namespace REP

/-- Python `str` modelled as a list of characters. -/
abbrev Str := List Char

/-- Python `str.lower` on a single character (ASCII case folding). -/
def pyLowerChar (c : Char) : Char :=
  if 'A' ≤ c ∧ c ≤ 'Z' then Char.ofNat (c.toNat + 32) else c

/-- Python `str.lower`: character-wise lowering. -/
def pyLower (s : Str) : Str := s.map pyLowerChar

/-- Python `needle in haystack` on strings: substring containment. -/
def isSubstring (needle haystack : Str) : Bool :=
  haystack.tails.any (fun t => needle.isPrefixOf t)

/-! ## `conflict_resolution` package

The detectors/resolvers in `src/conflict_resolution` operate on plain
dictionaries.  A rule dictionary is modelled by the three keys the code
reads (`id`, `tier`, `priority`), each optional to model `dict.get`
defaults. -/

/-- A rule dictionary as consumed by the conflict detectors/resolvers:
only the keys read by the code are modelled, each `Option` to reflect
`dict.get` with a default. -/
structure RuleDict where
  id : Option Str
  tier : Option Str
  priority : Option Int
deriving DecidableEq, Repr

/-- `PriorityBasedResolver.tier_weights` (module state set in `__init__`). -/
def tierWeightsList : List (Str × Int) :=
  [("safety".data, 1000), ("operational".data, 500), ("preference".data, 100)]

/-- Python `dict.get(key, default)` over an association list. -/
def dictGetD (m : List (Str × Int)) (key : Str) (dflt : Int) : Int :=
  match m.find? (fun kv => kv.1 = key) with
  | some kv => kv.2
  | none => dflt

/-- Result of conflict resolution (`ResolutionResult` dataclass). -/
structure ResolutionResult where
  winning_rule_id : Str
  losing_rule_id : Str
  strategy : Str
  reason : Str
deriving DecidableEq, Repr

/-- The score `weight + (1000 - priority)` computed inside
`PriorityBasedResolver.resolve` for one rule dictionary. -/
def priorityScore (r : RuleDict) : Int :=
  dictGetD tierWeightsList (r.tier.getD "preference".data) 0
    + (1000 - r.priority.getD 100)

/-- `PriorityBasedResolver.resolve` from
`src/conflict_resolution/resolution_strategies/priority_based.py`. -/
def priorityResolve (rule1 rule2 : RuleDict) : ResolutionResult :=
  let tier1 := rule1.tier.getD "preference".data
  let tier2 := rule2.tier.getD "preference".data
  let priority1 := rule1.priority.getD 100
  let priority2 := rule2.priority.getD 100
  let score1 := priorityScore rule1
  let score2 := priorityScore rule2
  if score1 > score2 then
    { winning_rule_id := rule1.id.getD "unknown".data
      losing_rule_id := rule2.id.getD "unknown".data
      strategy := "priority_based".data
      reason := "Higher priority: ".data ++ tier1 ++ " tier with priority ".data
        ++ (toString priority1).data }
  else
    { winning_rule_id := rule2.id.getD "unknown".data
      losing_rule_id := rule1.id.getD "unknown".data
      strategy := "priority_based".data
      reason := "Higher priority: ".data ++ tier2 ++ " tier with priority ".data
        ++ (toString priority2).data }

/-- `PriorityConflict` dataclass. -/
structure PriorityConflict where
  rule_1_id : Str
  rule_2_id : Str
  tier_1 : Str
  tier_2 : Str
  description : Str
deriving DecidableEq, Repr

/-- `PriorityConflictDetector.detect_priority_conflict` from
`src/conflict_resolution/conflict_detectors/priority_conflict_detector.py`. -/
def detectPriorityConflict (rule1 rule2 : RuleDict) : Option PriorityConflict :=
  let tier1 := rule1.tier.getD "preference".data
  let tier2 := rule2.tier.getD "preference".data
  if tier1 = tier2 then
    let priority1 := rule1.priority.getD 100
    let priority2 := rule2.priority.getD 100
    if |priority1 - priority2| > 50 then
      some { rule_1_id := rule1.id.getD "unknown".data
             rule_2_id := rule2.id.getD "unknown".data
             tier_1 := tier1
             tier_2 := tier2
             description := "Large priority gap: ".data ++ (toString priority1).data
               ++ " vs ".data ++ (toString priority2).data }
    else Option.none
  else Option.none

/-- Tier-weight function as worded by the spec (§4.4): Safety=1000,
Operational=500, Preference=100; defined on the three tier names. -/
def specTierWeight (tier : Str) : Int :=
  if tier = "safety".data then 1000
  else if tier = "operational".data then 500
  else 100

/-- Rule score as worded by the spec: `tier_weight(tier) + (1000 − priority)`. -/
def specScore (tier : Str) (priority : Int) : Int :=
  specTierWeight tier + (1000 - priority)

/-- The three tier names the spec assigns weights to. -/
def validTiers : List Str :=
  ["safety".data, "operational".data, "preference".data]

/-! ## `rules_emerging_pattern.models` data model -/

/-- `RuleTier` enum. -/
inductive RuleTier where
  | safety
  | operational
  | preference
deriving DecidableEq, Repr

/-- `EnforcementLevel` enum. -/
inductive EnforcementLevel where
  | strict
  | advisory
  | adaptive
  | fallback
deriving DecidableEq, Repr

/-- `RuleSeverity` enum. -/
inductive RuleSeverity where
  | low
  | medium
  | high
  | critical
deriving DecidableEq, Repr

/-- `ViolationType` enum (members referenced by the embedded code). -/
inductive ViolationType where
  | keyword_match
  | compliance_violation
  | custom_violation
deriving DecidableEq, Repr

/-- `ActionTaken` enum. -/
inductive ActionTaken where
  | noAction
  | warning
  | suggestion
  | block
  | redact
  | quarantine
  | escalate
deriving DecidableEq, Repr

/-- `RulePattern`: only the `keywords` field is read by the embedded
operations (regex lists, thresholds and action hints are never consulted
by the evaluation code modelled here). -/
structure RulePattern where
  keywords : List Str
deriving DecidableEq, Repr

/-- `Rule` (pydantic model): the fields read by the embedded operations. -/
structure Rule where
  id : Str
  name : Str
  description : Str
  tier : RuleTier
  severity : RuleSeverity
  patterns : List RulePattern
  enforcement_level : EnforcementLevel
  auto_block : Bool
  user_override : Bool
  tags : List Str
deriving DecidableEq, Repr

/-- The effective-context dictionary produced by
`RuleContext.get_effective_context`: the two keys read by the embedded
code (`domain`, `user_role`); both keys are always present in the dict,
with possibly-`None` values. -/
structure EffCtx where
  domain : Option Str
  user_role : Option Str
deriving DecidableEq, Repr

/-- `RuleContext` (pydantic model): the fields read by the embedded code. -/
structure RuleContext where
  domain : Option Str
  user_role : Option Str
deriving DecidableEq, Repr

/-- `RuleContext.get_effective_context` restricted to the keys consulted
by the embedded code. -/
def getEffectiveContext (ctx : RuleContext) : EffCtx :=
  { domain := ctx.domain, user_role := ctx.user_role }

/-- The empty dict `{}` passed as a violation context. -/
def emptyEffCtx : EffCtx := { domain := Option.none, user_role := Option.none }

/-- A raised Python exception. -/
inductive PyErr where
  | nameError (msg : Str)
  | typeError (msg : Str)
  | attributeError (msg : Str)
  | repositoryError (msg : Str)
deriving DecidableEq, Repr

/-- The `AttributeError` raised by `rule.enforcement_level.value` when the
field holds a plain string (see `getActionForRule`). -/
def enumValueError : PyErr :=
  PyErr.attributeError "str object has no attribute value".data

/-- `Violation` (pydantic model): the fields set or read by the embedded
operations; `detected_at` (wall clock) is omitted. -/
structure Violation where
  rule_id : Str
  rule_name : Str
  rule_tier : RuleTier
  rule_severity : RuleSeverity
  violation_type : ViolationType
  matched_content : Option Str
  matched_patterns : List Str
  confidence_score : ℚ
  action_taken : ActionTaken
  blocked : Bool
  user_override_allowed : Bool
  explanation : Option Str
  context : EffCtx
deriving DecidableEq, Repr

/-- `Violation.is_critical`. -/
def Violation.is_critical (v : Violation) : Bool :=
  v.rule_severity = RuleSeverity.critical

/-- `Suggestion` (pydantic model): the fields set by the embedded code. -/
structure Suggestion where
  type : Str
  title : Str
  description : Str
  confidence : ℚ
  source_rule : Option Str
  auto_applicable : Bool
  user_approval_required : Bool
deriving DecidableEq, Repr

/-- `ValidationResult` (pydantic model): the fields set or read by the
embedded operations; wall-clock fields (`processing_time_ms`,
`evaluated_at`) and the id/hash strings are omitted. -/
structure ValidationResult where
  valid : Bool
  total_score : ℚ
  confidence : ℚ
  total_rules_evaluated : Nat
  rules_triggered : Nat
  rules_violated : Nat
  violations : List Violation
  critical_violations : List Violation
  warnings : List Violation
  suggestions : List Suggestion
deriving DecidableEq, Repr

/-- `ValidationResult.is_blocked`. -/
def ValidationResult.is_blocked (r : ValidationResult) : Bool :=
  r.violations.any (fun v => v.blocked)

/-- `ValidationResult.has_violations`. -/
def ValidationResult.has_violations (r : ValidationResult) : Bool :=
  r.violations.length > 0

/-! ## Tier engines (`rules_emerging_pattern.core.tiered_rules`) -/

/-- `RuleEvaluationRequest` (pydantic model): the fields read by the
embedded operations.  `early_termination` defaults to `true` in the
source and is declared but never consulted by the engine code. -/
structure Request where
  content : Str
  context : Option RuleContext
  early_termination : Bool
deriving DecidableEq, Repr

/-- One entry of `SafetyRuleEngine._get_safety_patterns` /
`OperationalRuleEngine._get_operational_patterns`. -/
structure TierPatternData where
  pattern : Str
  severity : RuleSeverity
  category : Str
  action : ActionTaken
deriving DecidableEq, Repr

/-- `SafetyRuleEngine._get_safety_patterns` (the `action` field is not
present in the source dictionaries of this engine; it is unused here). -/
def safetyPatterns : List TierPatternData :=
  [ { pattern := "child exploitation".data, severity := RuleSeverity.critical,
      category := "child_safety".data, action := ActionTaken.block },
    { pattern := "how to make a bomb".data, severity := RuleSeverity.critical,
      category := "dangerous_content".data, action := ActionTaken.block },
    { pattern := "create weapon".data, severity := RuleSeverity.high,
      category := "weapons".data, action := ActionTaken.block },
    { pattern := "malware code".data, severity := RuleSeverity.high,
      category := "malicious_code".data, action := ActionTaken.block } ]

/-- The result value constructed at the top of `SafetyRuleEngine.evaluate`
(`valid=True, total_score=1.0, confidence=1.0`, empty lists). -/
def freshResult (confidence : ℚ) : ValidationResult :=
  { valid := true, total_score := 1, confidence := confidence,
    total_rules_evaluated := 0, rules_triggered := 0, rules_violated := 0,
    violations := [], critical_violations := [], warnings := [], suggestions := [] }

/-- Violation context dict stored by the tier engines:
`request.context.get_effective_context() if request.context else {}`. -/
def requestEffCtx (req : Request) : EffCtx :=
  match req.context with
  | some c => getEffectiveContext c
  | Option.none => emptyEffCtx

/-- `pattern in content_lower` test of a tier-engine loop. -/
def tierPatternHit (req : Request) (pd : TierPatternData) : Bool :=
  isSubstring pd.pattern (pyLower req.content)

/-- The `Violation` constructed by `SafetyRuleEngine.evaluate` for a
matched safety pattern. -/
def safetyViolation (req : Request) (pd : TierPatternData) : Violation :=
  { rule_id := "safety_".data ++ pd.category
    rule_name := "Safety Rule: ".data ++ pd.category
    rule_tier := RuleTier.safety
    rule_severity := pd.severity
    violation_type := ViolationType.keyword_match
    matched_content := some pd.pattern
    matched_patterns := [pd.pattern]
    confidence_score := 0.95
    action_taken := ActionTaken.block
    blocked := true
    user_override_allowed := false
    explanation := some ("Safety violation detected: ".data ++ pd.category)
    context := requestEffCtx req }

/-- Loop body of `SafetyRuleEngine.evaluate`: one safety pattern checked
against the lowered content, appending a blocking violation on a hit. -/
def safetyStep (req : Request) (res : ValidationResult)
    (pd : TierPatternData) : ValidationResult :=
  if tierPatternHit req pd then
    { res with violations := res.violations ++ [safetyViolation req pd],
               critical_violations := res.critical_violations ++ [safetyViolation req pd],
               valid := false }
  else res

/-- `SafetyRuleEngine.evaluate` from
`src/rules_emerging_pattern/core/tiered_rules/safety_engine.py`
(evaluation counters and wall-clock fields are not modelled). -/
def safetyEvaluate (req : Request) : ValidationResult :=
  let res := safetyPatterns.foldl (safetyStep req) (freshResult 1)
  { res with total_rules_evaluated := safetyPatterns.length,
             rules_triggered := res.violations.length }

/-- `OperationalRuleEngine._get_operational_patterns`. -/
def operationalPatterns : List TierPatternData :=
  [ { pattern := "copyright violation".data, severity := RuleSeverity.medium,
      category := "copyright".data, action := ActionTaken.warning },
    { pattern := "personal information".data, severity := RuleSeverity.high,
      category := "pii".data, action := ActionTaken.block },
    { pattern := "inappropriate language".data, severity := RuleSeverity.low,
      category := "language".data, action := ActionTaken.warning } ]

/-- Loop body of `OperationalRuleEngine.evaluate`. -/
def operationalStep (req : Request) (res : ValidationResult)
    (pd : TierPatternData) : ValidationResult :=
  if isSubstring pd.pattern (pyLower req.content) then
    let v : Violation :=
      { rule_id := "operational_".data ++ pd.category
        rule_name := "Operational Rule: ".data ++ pd.category
        rule_tier := RuleTier.operational
        rule_severity := pd.severity
        violation_type := ViolationType.compliance_violation
        matched_content := some pd.pattern
        matched_patterns := [pd.pattern]
        confidence_score := 0.85
        action_taken := pd.action
        blocked := pd.action = ActionTaken.block
        user_override_allowed := true
        explanation := some ("Operational guideline: ".data ++ pd.category)
        context := requestEffCtx req }
    let res := { res with violations := res.violations ++ [v] }
    let res := if pd.action = ActionTaken.warning
      then { res with warnings := res.warnings ++ [v] } else res
    if pd.action = ActionTaken.block then { res with valid := false } else res
  else res

/-- `OperationalRuleEngine.evaluate` from
`src/rules_emerging_pattern/core/tiered_rules/operational_engine.py`. -/
def operationalEvaluate (req : Request) : ValidationResult :=
  let res := operationalPatterns.foldl (operationalStep req) (freshResult 0.9)
  { res with total_rules_evaluated := operationalPatterns.length,
             rules_triggered := res.violations.length }

/-- One entry of `PreferenceRuleEngine._get_preference_patterns`. -/
structure PrefPatternData where
  pattern : Str
  category : Str
  suggestion : Str
deriving DecidableEq, Repr

/-- `PreferenceRuleEngine._get_preference_patterns`. -/
def preferencePatterns : List PrefPatternData :=
  [ { pattern := "informal tone".data, category := "tone".data,
      suggestion := "Consider using a more professional tone".data },
    { pattern := "no formatting".data, category := "formatting".data,
      suggestion := "Add proper formatting for better readability".data } ]

/-- Loop body of `PreferenceRuleEngine.evaluate`. -/
def preferenceStep (req : Request) (res : ValidationResult)
    (pd : PrefPatternData) : ValidationResult :=
  if isSubstring pd.pattern (pyLower req.content) then
    let s : Suggestion :=
      { type := "preference".data
        title := "Preference: ".data ++ pd.category
        description := pd.suggestion
        confidence := 0.75
        source_rule := some ("preference_".data ++ pd.category)
        auto_applicable := false
        user_approval_required := true }
    { res with suggestions := res.suggestions ++ [s] }
  else res

/-- `PreferenceRuleEngine.evaluate` from
`src/rules_emerging_pattern/core/tiered_rules/preference_engine.py`. -/
def preferenceEvaluate (req : Request) : ValidationResult :=
  let res := preferencePatterns.foldl (preferenceStep req) (freshResult 0.8)
  { res with total_rules_evaluated := preferencePatterns.length }

/-! ## `RuleEngine` orchestrator (`rules_emerging_pattern.core.rule_engine`) -/

/-- `RuleEngine._merge_tier_result`. -/
def mergeTierResult (main tier : ValidationResult) : ValidationResult :=
  { main with
    violations := main.violations ++ tier.violations
    critical_violations := main.critical_violations ++ tier.critical_violations
    warnings := main.warnings ++ tier.warnings
    suggestions := main.suggestions ++ tier.suggestions
    valid := if tier.valid then main.valid else false
    total_score := min main.total_score tier.total_score
    confidence := (main.confidence + tier.confidence) / 2 }

/-- The tier-engine table built by `RuleEngine._initialize_tier_engines`
(`self.tier_engines`), as explicit evaluation functions. -/
structure TierEngines where
  safety : Request → ValidationResult
  operational : Request → ValidationResult
  preference : Request → ValidationResult

/-- The engines installed by `RuleEngine._initialize_tier_engines`. -/
def defaultTierEngines : TierEngines :=
  { safety := safetyEvaluate
    operational := operationalEvaluate
    preference := preferenceEvaluate }

/-- Whether the `rules_by_tier` grouping of `_evaluate_by_tiers` has an
entry for a tier. -/
def tierPresent (tier : RuleTier) (rules : List Rule) : Bool :=
  rules.any (fun r => r.tier = tier)

/-- The per-tier `RuleEvaluationRequest` constructed inside
`_evaluate_by_tiers` (content and context are forwarded;
`early_termination` takes its pydantic default `True`). -/
def tierRequest (req : Request) : Request :=
  { content := req.content, context := req.context, early_termination := true }

/-- `RuleEngine._get_action_for_rule`: `Rule`'s pydantic config sets
`use_enum_values = True` (models/rule.py), so `rule.enforcement_level`
holds the plain string value (`"strict"`, ...), not the enum member;
`rule.enforcement_level.value` therefore raises `AttributeError` on
every call and the `strict`/`advisory`/`adaptive` dispatch below it is
dead code. -/
def getActionForRule (_rule : Rule) : Except PyErr ActionTaken :=
  Except.error enumValueError

/-- `RuleEngine._evaluate_by_tiers`, parameterised over the tier-engine
table (mirroring the `self.tier_engines` lookup).  Tiers are walked in
the fixed Safety → Operational → Preference order; after the Safety tier
the loop breaks when the merged result is blocked.  Wall-clock fields are
not modelled; the engine functions are total so the per-tier exception
fallback path of the source is unreachable in the embedding. -/
def evaluateByTiersWith (engines : TierEngines) (req : Request)
    (rules : List Rule) : ValidationResult :=
  let res := freshResult 1
  let afterSafety :=
    if tierPresent RuleTier.safety rules then
      let res := mergeTierResult res (engines.safety (tierRequest req))
      (res, res.is_blocked)
    else (res, false)
  let res := afterSafety.1
  let stopped := afterSafety.2
  let res :=
    if stopped then res
    else if tierPresent RuleTier.operational rules then
      mergeTierResult res (engines.operational (tierRequest req))
    else res
  let res :=
    if stopped then res
    else if tierPresent RuleTier.preference rules then
      mergeTierResult res (engines.preference (tierRequest req))
    else res
  { res with total_rules_evaluated := rules.length
             rules_triggered := res.violations.length
             rules_violated :=
               (res.violations.filter
                 (fun v => v.action_taken ≠ ActionTaken.noAction)).length }

/-- `RuleEngine._evaluate_by_tiers` with the engines installed by
`_initialize_tier_engines`. -/
def evaluateByTiers (req : Request) (rules : List Rule) : ValidationResult :=
  evaluateByTiersWith defaultTierEngines req rules

/-! ## Single-rule evaluation and applicability -/

/-- `tag.split(A, 1)[1]`: the part of a tag after its first colon. -/
def tagSuffix (t : Str) : Str :=
  (t.dropWhile (fun c => c ≠ ':')).drop 1

/-- `Rule.is_applicable_to_context` from
`src/rules_emerging_pattern/models/rule.py`, over the effective-context
dictionary.  The `domain`/`user_role` keys are always present in that
dictionary; comparing a tag suffix with a `None` domain is `False` in
Python, while the substring test `suffix in None` on the role path raises
`TypeError`, hence the `Except` result. -/
def isApplicableToContext (rule : Rule) (ctx : EffCtx) : Except PyErr Bool :=
  let ruleDomains := rule.tags.filter (fun t => List.isPrefixOf "domain:".data t)
  let domainOk :=
    ruleDomains.any (fun t =>
      match ctx.domain with
      | some d => tagSuffix t = d
      | Option.none => false)
  if ruleDomains ≠ [] ∧ ¬ domainOk then Except.ok false
  else
    let ruleRoles := rule.tags.filter (fun t => List.isPrefixOf "role:".data t)
    if ruleRoles = [] then Except.ok true
    else
      match ctx.user_role with
      | Option.none =>
          Except.error (PyErr.typeError "argument of type NoneType is not iterable".data)
      | some role =>
          if ruleRoles.any (fun t => isSubstring (tagSuffix t) role)
          then Except.ok true else Except.ok false

/-- The keyword-scan shared by `RuleEngine._evaluate_single_rule` and the
enforcement handlers: the first keyword of the first pattern whose
lowered form occurs in the lowered content. -/
def findMatchedKeyword (patterns : List RulePattern) (content : Str) : Option Str :=
  patterns.findSome? (fun p =>
    p.keywords.find? (fun kw => isSubstring (pyLower kw) (pyLower content)))

/-- `RuleEngine._evaluate_single_rule` from
`src/rules_emerging_pattern/core/rule_engine.py`: applicability check,
then simplified keyword matching.  On a keyword match, evaluating the
`Violation` constructor's argument list calls
`self._get_action_for_rule(rule)`, which raises (see `getActionForRule`),
so the match branch raises `AttributeError` instead of returning the
violation — the remaining arguments, including the rule's declared
`auto_block` and `user_override`, are never reached. -/
def evaluateSingleRule (rule : Rule) (content : Str)
    (context : Option RuleContext) : Except PyErr (Option Violation) := do
  let applicable ←
    match context with
    | Option.none => pure true
    | some c => isApplicableToContext rule (getEffectiveContext c)
  if ¬ applicable then
    pure Option.none
  else
    match findMatchedKeyword rule.patterns content with
    | Option.none => pure Option.none
    | some kw => do
      let action ← getActionForRule rule
      pure (some
        { rule_id := rule.id
          rule_name := rule.name
          rule_tier := rule.tier
          rule_severity := rule.severity
          violation_type := ViolationType.keyword_match
          matched_content := some kw
          matched_patterns := [kw]
          confidence_score := 0.8
          action_taken := action
          blocked := rule.auto_block
          user_override_allowed := rule.user_override
          explanation := some ("Content contains prohibited keyword: ".data ++ kw)
          context := match context with
            | some c => getEffectiveContext c
            | Option.none => emptyEffCtx })

/-! ## Enforcement handlers (`rule_engines.enforcement`) -/

/-- `StrictEnforcer.enforce` from
`src/rule_engines/enforcement/strict_enforcer.py` (counters not
modelled). -/
def strictEnforce (rule : Rule) (content : Str) : Option Violation :=
  (findMatchedKeyword rule.patterns content).map (fun kw =>
    { rule_id := rule.id
      rule_name := rule.name
      rule_tier := rule.tier
      rule_severity := RuleSeverity.critical
      violation_type := ViolationType.keyword_match
      matched_content := some kw
      matched_patterns := [kw]
      confidence_score := 0.95
      action_taken := ActionTaken.block
      blocked := true
      user_override_allowed := false
      explanation := some ("Strict enforcement: ".data ++ rule.description)
      context := emptyEffCtx })

/-- `AdvisoryEnforcer.enforce` from
`src/rule_engines/enforcement/advisory_enforcer.py`. -/
def advisoryEnforce (rule : Rule) (content : Str) : Option Violation :=
  (findMatchedKeyword rule.patterns content).map (fun kw =>
    { rule_id := rule.id
      rule_name := rule.name
      rule_tier := rule.tier
      rule_severity := RuleSeverity.medium
      violation_type := ViolationType.keyword_match
      matched_content := some kw
      matched_patterns := [kw]
      confidence_score := 0.8
      action_taken := ActionTaken.warning
      blocked := false
      user_override_allowed := true
      explanation := some ("Advisory: ".data ++ rule.description
        ++ ". User can override.".data)
      context := emptyEffCtx })

/-- The admin-skip test at the top of `AdaptiveEnforcer.enforce`
(`ctx.get("user_role", "") == "admin"`). -/
def adaptiveSkip (context : Option RuleContext) : Bool :=
  match context with
  | some c => (getEffectiveContext c).user_role = some "admin".data
  | Option.none => false

/-- `AdaptiveEnforcer.enforce` from
`src/rule_engines/enforcement/adaptive_enforcer.py`: privileged contexts
(`user_role == "admin"`) are skipped, otherwise keyword matching yields a
non-blocking suggestion violation. -/
def adaptiveEnforce (rule : Rule) (content : Str)
    (context : Option RuleContext) : Option Violation :=
  if adaptiveSkip context then Option.none
  else
    (findMatchedKeyword rule.patterns content).map (fun kw =>
      { rule_id := rule.id
        rule_name := rule.name
        rule_tier := rule.tier
        rule_severity := RuleSeverity.low
        violation_type := ViolationType.keyword_match
        matched_content := some kw
        matched_patterns := [kw]
        confidence_score := 0.7
        action_taken := ActionTaken.suggestion
        blocked := false
        user_override_allowed := true
        explanation := some ("Suggestion: ".data ++ rule.description)
        context := emptyEffCtx })

/-- `FallbackHandler.handle_failure` from
`src/rule_engines/enforcement/fallback_handler.py`: a conservative
warning for Safety-tier rules, silence otherwise.  The `content`
argument is accepted and never read, as in the source. -/
def fallbackHandle (rule : Rule) (_content : Str) (error : Str) : Option Violation :=
  if rule.tier = RuleTier.safety then
    some
      { rule_id := "fallback_".data ++ rule.id
        rule_name := "Fallback: ".data ++ rule.name
        rule_tier := rule.tier
        rule_severity := RuleSeverity.high
        violation_type := ViolationType.custom_violation
        matched_content := some []
        matched_patterns := []
        confidence_score := 0.5
        action_taken := ActionTaken.warning
        blocked := false
        user_override_allowed := true
        explanation := some ("Rule enforcement failed. Error: ".data ++ error)
        context := emptyEffCtx }
  else Option.none

/-! ## Result cache (`RuleEngine.evaluation_cache`)

Entries are keyed by the string built in `_get_cached_result` /
`_cache_result`; timestamps (`datetime.utcnow()`) are modelled as
rational numbers of seconds, and `(now − timestamp).total_seconds()` as
plain subtraction. -/

/-- One value of `self.evaluation_cache`. -/
structure CacheItem where
  result : ValidationResult
  timestamp : ℚ
deriving DecidableEq

/-- `self.evaluation_cache`: an insertion-ordered dictionary modelled as
an association list (keys unique by dict semantics). -/
abbrev Cache := List (Str × CacheItem)

/-- Dictionary lookup `self.evaluation_cache[cache_key]`. -/
def cacheLookup (cache : Cache) (key : Str) : Option CacheItem :=
  (cache.find? (fun kv => kv.1 = key)).map (fun kv => kv.2)

/-- Dictionary deletion `del self.evaluation_cache[cache_key]`. -/
def cacheErase (cache : Cache) (key : Str) : Cache :=
  cache.filter (fun kv => kv.1 ≠ key)

/-- The engine's `self.cache_ttl` (300 seconds, set in `__init__`). -/
def cacheTTL : ℚ := 300

/-- `RuleEngine._get_cached_result` from
`src/rules_emerging_pattern/core/rule_engine.py`, with the clock passed
explicitly: a fresh entry is returned as a hit, an expired entry is
deleted and reported as a miss.  The cache resulting from the expiry
deletion is returned alongside. -/
def getCachedResult (cache : Cache) (key : Str) (now ttl : ℚ) :
    Option ValidationResult × Cache :=
  match cacheLookup cache key with
  | some item =>
      if now - item.timestamp < ttl then (some item.result, cache)
      else (Option.none, cacheErase cache key)
  | Option.none => (Option.none, cache)

/-! ## `RuleEngine.evaluate` and its error path -/

/-- `RuleEngine._create_error_result`: the source constructs the
system-error `Violation` with `rule_severity=RuleSeverity.CRITICAL`, but
`RuleSeverity` is not imported in `rule_engine.py`, so evaluating the
constructor arguments raises `NameError` instead of producing a result. -/
def createErrorResult : Except PyErr ValidationResult :=
  Except.error (PyErr.nameError "name RuleSeverity is not defined".data)

/-- The error `ValidationResult` the `_create_error_result` source text
describes (fields as written at lines 392–415), i.e. what the function
would return if `RuleSeverity` were imported. -/
def intendedErrorResult : ValidationResult :=
  { valid := false
    total_score := 0
    confidence := 0
    total_rules_evaluated := 0, rules_triggered := 0, rules_violated := 0
    violations :=
      [ { rule_id := "system_error".data
          rule_name := "System Error".data
          rule_tier := RuleTier.safety
          rule_severity := RuleSeverity.critical
          violation_type := ViolationType.custom_violation
          matched_content := Option.none
          matched_patterns := []
          confidence_score := 1
          action_taken := ActionTaken.block
          blocked := true
          user_override_allowed := false
          explanation := some "Evaluation failed".data
          context := emptyEffCtx } ]
    critical_violations := [], warnings := [], suggestions := [] }

/-- `RuleEngine._create_empty_result` (no applicable rules). -/
def createEmptyResult : ValidationResult := freshResult 1

/-- The collaborator inputs of one `RuleEngine.evaluate` call: the
current cache and clock, the cache key built from the content and
context hashes (hashing itself is outside the embedding), and the
outcome of `self._get_applicable_rules` (which raises when the rule
repository does). -/
structure EngineEnv where
  cache : Cache
  now : ℚ
  cacheKey : Str
  applicableRules : Except PyErr (List Rule)

/-- Body of the `try:` block of `RuleEngine.evaluate`: cache check, rule
lookup, tiered evaluation (statistics updates and the cache write are
state effects not modelled). -/
def evaluateTry (env : EngineEnv) (req : Request) : Except PyErr ValidationResult := do
  match (getCachedResult env.cache env.cacheKey env.now cacheTTL).1 with
  | some cached => pure cached
  | Option.none =>
    let rules ← env.applicableRules
    if rules.isEmpty then pure createEmptyResult
    else pure (evaluateByTiers req rules)

/-- `RuleEngine.evaluate`: any exception raised inside the `try:` block
is caught and routed to `_create_error_result` — which itself raises
`NameError` (see `createErrorResult`). -/
def evaluate (env : EngineEnv) (req : Request) : Except PyErr ValidationResult :=
  match evaluateTry env req with
  | Except.ok r => Except.ok r
  | Except.error _ => createErrorResult

/-! ## Concrete instances used by counterexamples and witnesses -/

/-- Two same-tier rule dictionaries with equal priority (equal scores). -/
def tieRuleA : RuleDict :=
  { id := some "A".data, tier := some "safety".data, priority := some 100 }

/-- Second rule dictionary of the tie pair. -/
def tieRuleB : RuleDict :=
  { id := some "B".data, tier := some "safety".data, priority := some 100 }

/-- Safety-tier rule dictionary with priority 10. -/
def safetyRule10 : RuleDict :=
  { id := some "A".data, tier := some "safety".data, priority := some 10 }

/-- Preference-tier rule dictionary with priority 900. -/
def prefRule900 : RuleDict :=
  { id := some "B".data, tier := some "preference".data, priority := some 900 }

/-! ## C3 -/

/-- C3 counterexample: two rules with equal priority-based scores resolve
to rule B (the second argument), not rule A as the claim states. -/
theorem C3_counterexample :
    priorityScore tieRuleA = priorityScore tieRuleB ∧
    (priorityResolve tieRuleA tieRuleB).winning_rule_id = "B".data ∧
    (priorityResolve tieRuleA tieRuleB).winning_rule_id ≠ "A".data := by
  decide

/-- C3 (amended): for every pair of rules whose priority-based scores are
equal, the priority-based conflict resolver returns rule B (the second
argument) as the winner. -/
theorem C3_amended (rule1 rule2 : RuleDict)
    (h : priorityScore rule1 = priorityScore rule2) :
    (priorityResolve rule1 rule2).winning_rule_id
      = rule2.id.getD "unknown".data := by
  unfold priorityResolve
  simp [h]

/-- C3 witness: the amended tie-break applied to a concrete equal-score
pair. -/
theorem C3_witness :
    priorityScore tieRuleA = priorityScore tieRuleB ∧
    (priorityResolve tieRuleA tieRuleB).winning_rule_id
      = tieRuleB.id.getD "unknown".data :=
  ⟨by decide, C3_amended tieRuleA tieRuleB (by decide)⟩

/-! ## C6 -/

/-- C6: the priority-gap detector reports a conflict iff both rules carry
the same tier value and the absolute priority difference strictly exceeds
50; in particular a gap of exactly 50 is no conflict and differing tiers
never conflict. -/
theorem C6_priority_gap (rule1 rule2 : RuleDict) :
    (detectPriorityConflict rule1 rule2).isSome = true ↔
      (rule1.tier.getD "preference".data = rule2.tier.getD "preference".data ∧
       |rule1.priority.getD 100 - rule2.priority.getD 100| > 50) := by
  unfold detectPriorityConflict
  by_cases h1 : rule1.tier.getD "preference".data = rule2.tier.getD "preference".data
  · by_cases h2 : |rule1.priority.getD 100 - rule2.priority.getD 100| > 50
    · simp [h1, h2]
    · simp [h1, h2]
  · simp [h1]

/-! ## C7 -/

/-- C7: the priority-based resolver realises the spec scoring
`tier_weight + (1000 − priority)` with weights Safety=1000,
Operational=500, Preference=100 — the rule with the strictly higher spec
score wins; in particular a Safety rule with priority 10 beats a
Preference rule with priority 900. -/
theorem C7_priority_resolution (rule1 rule2 : RuleDict) (t1 t2 : Str) (p1 p2 : Int)
    (ht1 : rule1.tier = some t1) (ht2 : rule2.tier = some t2)
    (hp1 : rule1.priority = some p1) (hp2 : rule2.priority = some p2)
    (hv1 : t1 ∈ validTiers) (hv2 : t2 ∈ validTiers) :
    (specScore t1 p1 > specScore t2 p2 →
      (priorityResolve rule1 rule2).winning_rule_id = rule1.id.getD "unknown".data) ∧
    (specScore t2 p2 > specScore t1 p1 →
      (priorityResolve rule1 rule2).winning_rule_id = rule2.id.getD "unknown".data) := by
  have hw : ∀ t, t ∈ validTiers → ∀ p : Int,
      specScore t p = dictGetD tierWeightsList t 0 + (1000 - p) := by
    intro t ht p
    simp only [validTiers, List.mem_cons, List.mem_singleton] at ht
    rcases ht with rfl | rfl | rfl | h
    · rfl
    · rfl
    · rfl
    · cases h
  have hs1 : priorityScore rule1 = specScore t1 p1 := by
    rw [hw t1 hv1 p1]
    unfold priorityScore
    rw [ht1, hp1]
    rfl
  have hs2 : priorityScore rule2 = specScore t2 p2 := by
    rw [hw t2 hv2 p2]
    unfold priorityScore
    rw [ht2, hp2]
    rfl
  constructor
  · intro hgt
    have hgt2 : priorityScore rule1 > priorityScore rule2 := by
      rw [hs1, hs2]
      exact hgt
    unfold priorityResolve
    simp [hgt2]
  · intro hgt
    have hle : ¬ priorityScore rule1 > priorityScore rule2 := by
      rw [hs1, hs2]
      exact fun h => lt_asymm hgt h
    unfold priorityResolve
    simp [hle]

/-- C7 witness: Safety tier priority 10 versus Preference tier priority
900 resolves to the first rule. -/
theorem C7_witness :
    specScore "safety".data 10 > specScore "preference".data 900 ∧
    (priorityResolve safetyRule10 prefRule900).winning_rule_id
      = safetyRule10.id.getD "unknown".data :=
  ⟨by decide,
   (C7_priority_resolution safetyRule10 prefRule900 "safety".data "preference".data
      10 900 rfl rfl rfl rfl (by decide) (by decide)).1 (by decide)⟩

/-! ## C8 -/

/-- C8: on an enforcement failure the fallback handler returns a
conservative non-blocking WARNING violation for Safety-tier rules
(fail-closed) and nothing for any other tier (fail-open). -/
theorem C8_fallback_asymmetry (rule : Rule) (content error : Str) :
    (rule.tier = RuleTier.safety →
      ∃ v, fallbackHandle rule content error = some v ∧
        v.action_taken = ActionTaken.warning ∧ v.blocked = false ∧
        v.rule_tier = RuleTier.safety) ∧
    (rule.tier ≠ RuleTier.safety →
      fallbackHandle rule content error = Option.none) := by
  constructor
  · intro h
    unfold fallbackHandle
    rw [if_pos h]
    exact ⟨_, rfl, rfl, rfl, h⟩
  · intro h
    unfold fallbackHandle
    rw [if_neg h]

/-- A Safety-tier rule used in witnesses: declares `user_override=True`
(something the authoring-time validator would reject) and a keyword
pattern. -/
def safetyKeywordRule : Rule :=
  { id := "safety_custom".data
    name := "Custom Safety Rule".data
    description := "blocks the forbidden phrase".data
    tier := RuleTier.safety
    severity := RuleSeverity.critical
    patterns := [{ keywords := ["forbidden phrase".data] }]
    enforcement_level := EnforcementLevel.strict
    auto_block := true
    user_override := true
    tags := [] }

/-- An Operational-tier rule used in witnesses. -/
def operationalKeywordRule : Rule :=
  { id := "op_rule".data
    name := "Operational Rule".data
    description := "advisory keyword rule".data
    tier := RuleTier.operational
    severity := RuleSeverity.medium
    patterns := [{ keywords := ["some keyword".data] }]
    enforcement_level := EnforcementLevel.advisory
    auto_block := false
    user_override := true
    tags := [] }

/-- C8 witness: the fallback handler applied to a Safety-tier rule and to
an Operational-tier rule on a concrete failure. -/
theorem C8_witness :
    (∃ v, fallbackHandle safetyKeywordRule "content".data "boom".data = some v ∧
      v.action_taken = ActionTaken.warning ∧ v.blocked = false ∧
      v.rule_tier = RuleTier.safety) ∧
    fallbackHandle operationalKeywordRule "content".data "boom".data = Option.none :=
  ⟨(C8_fallback_asymmetry safetyKeywordRule "content".data "boom".data).1 rfl,
   (C8_fallback_asymmetry operationalKeywordRule "content".data "boom".data).2
     (by decide)⟩

/-! ## C5 -/

/-- Whether some keyword of some pattern of the rule occurs
(case-lowered) in the lowered content: the match condition of the
enforcer keyword scans. -/
def ruleKeywordMatch (rule : Rule) (content : Str) : Bool :=
  rule.patterns.any (fun p =>
    p.keywords.any (fun kw => isSubstring (pyLower kw) (pyLower content)))

theorem findMatchedKeyword_isSome (ps : List RulePattern) (content : Str) :
    (findMatchedKeyword ps content).isSome =
      ps.any (fun p =>
        p.keywords.any (fun kw => isSubstring (pyLower kw) (pyLower content))) := by
  induction ps with
  | nil => rfl
  | cons p ps ih =>
    rw [findMatchedKeyword, List.findSome?_cons, List.any_cons]
    cases hfind : p.keywords.find? (fun kw => isSubstring (pyLower kw) (pyLower content)) with
    | none =>
      have hall := List.find?_eq_none.mp hfind
      have hany : p.keywords.any (fun kw => isSubstring (pyLower kw) (pyLower content)) = false := by
        rw [List.any_eq_false]
        intro kw hkw
        exact hall kw hkw
      rw [hany, Bool.false_or, ← findMatchedKeyword]
      exact ih
    | some kw =>
      have hmem := List.find?_some hfind
      have hany : p.keywords.any (fun kw => isSubstring (pyLower kw) (pyLower content)) = true := by
        rw [List.any_eq_true]
        exact ⟨kw, List.mem_of_find?_eq_some hfind, hmem⟩
      rw [hany, Bool.true_or]
      rfl

/-- C5: for a rule with Strict enforcement whose pattern matches the
content, the strict enforcer produces a violation with `action=BLOCK`,
`blocked=true`, `user_override_allowed=false` and the fixed confidence
0.95 (independent of any evaluation context — the enforcer takes none). -/
theorem C5_strict_enforcement (rule : Rule) (content : Str)
    (_hlevel : rule.enforcement_level = EnforcementLevel.strict)
    (hmatch : ruleKeywordMatch rule content = true) :
    ∃ v, strictEnforce rule content = some v ∧
      v.action_taken = ActionTaken.block ∧ v.blocked = true ∧
      v.user_override_allowed = false ∧ v.confidence_score = 0.95 := by
  have hsome : (findMatchedKeyword rule.patterns content).isSome = true := by
    rw [findMatchedKeyword_isSome]
    exact hmatch
  obtain ⟨kw, hkw⟩ := Option.isSome_iff_exists.mp hsome
  refine ⟨{ rule_id := rule.id
            rule_name := rule.name
            rule_tier := rule.tier
            rule_severity := RuleSeverity.critical
            violation_type := ViolationType.keyword_match
            matched_content := some kw
            matched_patterns := [kw]
            confidence_score := 0.95
            action_taken := ActionTaken.block
            blocked := true
            user_override_allowed := false
            explanation := some ("Strict enforcement: ".data ++ rule.description)
            context := emptyEffCtx }, ?_, rfl, rfl, rfl, rfl⟩
  unfold strictEnforce
  rw [hkw]
  rfl

/-- C5 witness: the strict enforcer on a concrete matching rule. -/
theorem C5_witness :
    safetyKeywordRule.enforcement_level = EnforcementLevel.strict ∧
    ruleKeywordMatch safetyKeywordRule "a FORBIDDEN Phrase appears".data = true ∧
    ∃ v, strictEnforce safetyKeywordRule "a FORBIDDEN Phrase appears".data = some v ∧
      v.action_taken = ActionTaken.block ∧ v.blocked = true ∧
      v.user_override_allowed = false ∧ v.confidence_score = 0.95 :=
  ⟨rfl, by decide,
   C5_strict_enforcement safetyKeywordRule "a FORBIDDEN Phrase appears".data rfl
     (by decide)⟩

/-! ## C9 -/

/-- C9: a cache lookup returns a stored ValidationResult only while the
entry's age is strictly below the TTL, and an entry at or past the TTL is
never returned — the lookup reports a miss and removes the expired
entry. -/
theorem C9_cache_ttl (cache : Cache) (key : Str) (now ttl : ℚ) :
    (∀ r, (getCachedResult cache key now ttl).1 = some r →
      ∃ item, cacheLookup cache key = some item ∧
        now - item.timestamp < ttl ∧ r = item.result) ∧
    (∀ item, cacheLookup cache key = some item → ttl ≤ now - item.timestamp →
      getCachedResult cache key now ttl = (Option.none, cacheErase cache key)) := by
  constructor
  · intro r hr
    unfold getCachedResult at hr
    cases hlook : cacheLookup cache key with
    | none =>
      rw [hlook] at hr
      simp at hr
    | some item =>
      rw [hlook] at hr
      dsimp only at hr
      by_cases hage : now - item.timestamp < ttl
      · rw [if_pos hage] at hr
        dsimp only at hr
        exact ⟨item, rfl, hage, (Option.some.inj hr).symm⟩
      · rw [if_neg hage] at hr
        simp at hr
  · intro item hlook hage
    unfold getCachedResult
    rw [hlook]
    dsimp only
    rw [if_neg (not_lt.mpr hage)]

/-- A concrete cached result used by the C9 witness. -/
def witnessCachedResult : ValidationResult := freshResult 1

/-- A concrete one-entry cache whose entry is 400 seconds old at time
1000. -/
def witnessCache : Cache :=
  [("key1".data, { result := witnessCachedResult, timestamp := 600 })]

/-- C9 witness: at time 1000 with TTL 300, the 400-second-old entry is
not returned and is removed from the cache. -/
theorem C9_witness :
    cacheLookup witnessCache "key1".data
      = some { result := witnessCachedResult, timestamp := 600 } ∧
    cacheTTL ≤ (1000 : ℚ) - 600 ∧
    getCachedResult witnessCache "key1".data 1000 cacheTTL
      = (Option.none, cacheErase witnessCache "key1".data) :=
  ⟨rfl, by norm_num [cacheTTL],
   (C9_cache_ttl witnessCache "key1".data 1000 cacheTTL).2
     { result := witnessCachedResult, timestamp := 600 } rfl
     (by norm_num [cacheTTL])⟩

/-! ## C2 -/

/-- The engine environment of a request whose rule lookup raises (the
repository collaborator is unavailable); the cache is empty. -/
def failingEnv : EngineEnv :=
  { cache := []
    now := 0
    cacheKey := "k".data
    applicableRules :=
      Except.error (PyErr.repositoryError "rule repository unavailable".data) }

/-- A concrete evaluation request. -/
def helloRequest : Request :=
  { content := "hello".data, context := Option.none, early_termination := true }

/-- C2 (code bug): when the rule lookup raises, `evaluate` is supposed to
return the error result described by `intendedErrorResult` (valid=false,
one system-error violation, blocked), but `_create_error_result` itself
raises `NameError` because `RuleSeverity` is not imported in
`rule_engine.py`, so the caller receives a propagated exception instead
of a ValidationResult. -/
theorem C2_error_path_raises :
    evaluate failingEnv helloRequest
      = Except.error (PyErr.nameError "name RuleSeverity is not defined".data) ∧
    intendedErrorResult.valid = false ∧
    intendedErrorResult.violations.length = 1 ∧
    intendedErrorResult.is_blocked = true := by
  refine ⟨rfl, rfl, rfl, rfl⟩

/-! ## C1 -/

theorem safety_foldl_spec (req : Request) (l : List TierPatternData) :
    ∀ res : ValidationResult,
      l.foldl (safetyStep req) res =
        { res with
          violations := res.violations
            ++ (l.filter (tierPatternHit req)).map (safetyViolation req)
          critical_violations := res.critical_violations
            ++ (l.filter (tierPatternHit req)).map (safetyViolation req)
          valid := res.valid && ! l.any (tierPatternHit req) } := by
  induction l with
  | nil =>
    intro res
    simp
  | cons pd l ih =>
    intro res
    rw [List.foldl_cons]
    by_cases h : tierPatternHit req pd
    · rw [ih (safetyStep req res pd)]
      unfold safetyStep
      rw [if_pos h]
      simp [List.filter_cons, List.any_cons, h]
    · rw [ih (safetyStep req res pd)]
      unfold safetyStep
      rw [if_neg h]
      simp [List.filter_cons, List.any_cons, h]

theorem safetyEvaluate_violations (req : Request) :
    (safetyEvaluate req).violations =
      (safetyPatterns.filter (tierPatternHit req)).map (safetyViolation req) := by
  unfold safetyEvaluate
  rw [safety_foldl_spec]
  rfl

theorem safetyEvaluate_critical (req : Request) :
    (safetyEvaluate req).critical_violations =
      (safetyPatterns.filter (tierPatternHit req)).map (safetyViolation req) := by
  unfold safetyEvaluate
  rw [safety_foldl_spec]
  rfl

theorem safetyEvaluate_suggestions (req : Request) :
    (safetyEvaluate req).suggestions = [] := by
  unfold safetyEvaluate
  rw [safety_foldl_spec]
  rfl

theorem evaluateSingleRule_eq (rule : Rule) (content : Str)
    (context : Option RuleContext) :
    evaluateSingleRule rule content context =
      match context with
      | Option.none =>
        (match findMatchedKeyword rule.patterns content with
         | Option.none => Except.ok Option.none
         | some _ => Except.error enumValueError)
      | some c =>
        match isApplicableToContext rule (getEffectiveContext c) with
        | Except.error e => Except.error e
        | Except.ok false => Except.ok Option.none
        | Except.ok true =>
          match findMatchedKeyword rule.patterns content with
          | Option.none => Except.ok Option.none
          | some _ => Except.error enumValueError := by
  cases context with
  | none =>
    unfold evaluateSingleRule
    cases hfind : findMatchedKeyword rule.patterns content with
    | none => simp [hfind, pure, Except.pure, bind, Except.bind]
    | some kw =>
      simp [hfind, pure, Except.pure, bind, Except.bind, getActionForRule]
  | some c =>
    unfold evaluateSingleRule
    cases happ : isApplicableToContext rule (getEffectiveContext c) with
    | error e =>
      simp [happ, pure, Except.pure, bind, Except.bind]
    | ok b =>
      cases b with
      | false => simp [happ, pure, Except.pure, bind, Except.bind]
      | true =>
        cases hfind : findMatchedKeyword rule.patterns content with
        | none => simp [happ, hfind, pure, Except.pure, bind, Except.bind]
        | some kw =>
          simp [happ, hfind, pure, Except.pure, bind, Except.bind,
            getActionForRule]

theorem evaluateSingleRule_no_violation (rule : Rule) (content : Str)
    (context : Option RuleContext) (v : Violation) :
    evaluateSingleRule rule content context ≠ Except.ok (some v) := by
  rw [evaluateSingleRule_eq]
  cases context with
  | none =>
    cases hfind : findMatchedKeyword rule.patterns content with
    | none => simp [hfind]
    | some kw => simp [hfind]
  | some c =>
    cases happ : isApplicableToContext rule (getEffectiveContext c) with
    | error e => simp [happ]
    | ok b =>
      cases b with
      | false => simp [happ]
      | true =>
        cases hfind : findMatchedKeyword rule.patterns content with
        | none => simp [happ, hfind]
        | some kw => simp [happ, hfind]

/-- C1: every Violation produced at evaluation time for a Safety-tier
rule has `user_override_allowed = false`, whatever the rule declares:
the Safety tier engine hardcodes `false`, and the direct single-rule
path — the only evaluation-time code that would copy the declared
`user_override` flag into a violation — never produces a violation at
all, because its match branch raises `AttributeError` inside
`_get_action_for_rule` before the violation is built. -/
theorem C1_safety_override_false (req : Request) (rule : Rule)
    (content : Str) (context : Option RuleContext) (v : Violation) :
    (v ∈ (safetyEvaluate req).violations → v.user_override_allowed = false) ∧
    (rule.tier = RuleTier.safety →
      evaluateSingleRule rule content context ≠ Except.ok (some v)) := by
  constructor
  · intro hv
    rw [safetyEvaluate_violations] at hv
    obtain ⟨pd, _, rfl⟩ := List.mem_map.mp hv
    rfl
  · intro _
    exact evaluateSingleRule_no_violation rule content context v

/-- A request that matches the hardcoded safety pattern
`"how to make a bomb"`. -/
def bombRequest : Request :=
  { content := "How to make a bomb, please".data
    context := Option.none
    early_termination := true }

/-- The violation `SafetyRuleEngine.evaluate` emits for `bombRequest`. -/
def bombViolation : Violation :=
  safetyViolation bombRequest
    { pattern := "how to make a bomb".data, severity := RuleSeverity.critical,
      category := "dangerous_content".data, action := ActionTaken.block }

/-! ## C4 -/

theorem evaluateByTiersWith_stop (engines : TierEngines) (req : Request)
    (rules : List Rule)
    (hsafe : tierPresent RuleTier.safety rules = true)
    (hblock : (mergeTierResult (freshResult 1)
      (engines.safety (tierRequest req))).is_blocked = true) :
    evaluateByTiersWith engines req rules =
      { mergeTierResult (freshResult 1) (engines.safety (tierRequest req)) with
        total_rules_evaluated := rules.length
        rules_triggered := (mergeTierResult (freshResult 1)
          (engines.safety (tierRequest req))).violations.length
        rules_violated := ((mergeTierResult (freshResult 1)
          (engines.safety (tierRequest req))).violations.filter
            (fun v => v.action_taken ≠ ActionTaken.noAction)).length } := by
  unfold evaluateByTiersWith
  simp only [hsafe, if_true, hblock, if_pos]

theorem merge_fresh_violations (tier : ValidationResult) :
    (mergeTierResult (freshResult 1) tier).violations = tier.violations := by
  unfold mergeTierResult freshResult
  simp

theorem merge_fresh_critical (tier : ValidationResult) :
    (mergeTierResult (freshResult 1) tier).critical_violations
      = tier.critical_violations := by
  unfold mergeTierResult freshResult
  simp

theorem merge_fresh_suggestions (tier : ValidationResult) :
    (mergeTierResult (freshResult 1) tier).suggestions = tier.suggestions := by
  unfold mergeTierResult freshResult
  simp

theorem safety_merge_blocked (req : Request)
    (hmatch : safetyPatterns.any (tierPatternHit req) = true) :
    (mergeTierResult (freshResult 1) (safetyEvaluate req)).is_blocked = true := by
  obtain ⟨pd, hpd, hhit⟩ := List.any_eq_true.mp hmatch
  unfold ValidationResult.is_blocked
  rw [merge_fresh_violations, safetyEvaluate_violations, List.any_eq_true]
  exact ⟨safetyViolation req pd,
    List.mem_map_of_mem _ (List.mem_filter.mpr ⟨hpd, hhit⟩), rfl⟩

/-- C4: when early termination is requested and a Safety-tier match sets
the blocked flag, the lower-tier evaluators never run — the tier walk's
outcome does not depend on the Operational/Preference engines at all —
and for content that matches both a Safety pattern and a Preference
pattern the aggregate carries the Safety violation in
`critical_violations` while `suggestions` stays empty. -/
theorem C4_early_termination (engines2 : TierEngines) (req : Request)
    (rules : List Rule)
    (_het : req.early_termination = true)
    (hsafe : tierPresent RuleTier.safety rules = true)
    (_hpref : tierPresent RuleTier.preference rules = true)
    (heng : engines2.safety = safetyEvaluate)
    (hmatch : safetyPatterns.any (tierPatternHit (tierRequest req)) = true)
    (_hprefmatch : preferencePatterns.any
      (fun pd => isSubstring pd.pattern (pyLower req.content)) = true) :
    evaluateByTiersWith engines2 req rules = evaluateByTiers req rules ∧
    (∃ v, v ∈ (evaluateByTiers req rules).critical_violations ∧
      v.rule_tier = RuleTier.safety ∧ v.blocked = true) ∧
    (evaluateByTiers req rules).suggestions = [] := by
  have hblock := safety_merge_blocked (tierRequest req) hmatch
  have hstop2 := evaluateByTiersWith_stop defaultTierEngines req rules hsafe
    (by exact hblock)
  have hstop1 := evaluateByTiersWith_stop engines2 req rules hsafe
    (by rw [heng]; exact hblock)
  obtain ⟨pd, hpd, hhit⟩ := List.any_eq_true.mp hmatch
  refine ⟨?_, ?_, ?_⟩
  · rw [hstop1, heng]
    rw [evaluateByTiers, hstop2]
    rfl
  · rw [evaluateByTiers, hstop2]
    refine ⟨safetyViolation (tierRequest req) pd, ?_, rfl, rfl⟩
    show safetyViolation (tierRequest req) pd ∈
      (mergeTierResult (freshResult 1)
        (defaultTierEngines.safety (tierRequest req))).critical_violations
    rw [show defaultTierEngines.safety = safetyEvaluate from rfl,
        merge_fresh_critical, safetyEvaluate_critical]
    exact List.mem_map_of_mem _ (List.mem_filter.mpr ⟨hpd, hhit⟩)
  · rw [evaluateByTiers, hstop2]
    show (mergeTierResult (freshResult 1)
      (defaultTierEngines.safety (tierRequest req))).suggestions = []
    rw [show defaultTierEngines.safety = safetyEvaluate from rfl,
        merge_fresh_suggestions, safetyEvaluate_suggestions]

/-- Rules list holding one Safety-tier and one Preference-tier rule. -/
def mixedRules : List Rule :=
  [ safetyKeywordRule,
    { id := "pref_rule".data
      name := "Preference Rule".data
      description := "tone preference".data
      tier := RuleTier.preference
      severity := RuleSeverity.low
      patterns := [{ keywords := ["informal tone".data] }]
      enforcement_level := EnforcementLevel.adaptive
      auto_block := false
      user_override := true
      tags := [] } ]

/-- Request whose content matches a hardcoded Safety pattern and a
hardcoded Preference pattern, with early termination requested. -/
def mixedRequest : Request :=
  { content := "How to make a bomb in an informal tone".data
    context := Option.none
    early_termination := true }

/-- C4 witness: the early-termination statement at the concrete mixed
request and rule set. -/
theorem C4_witness :
    evaluateByTiersWith defaultTierEngines mixedRequest mixedRules
      = evaluateByTiers mixedRequest mixedRules ∧
    (∃ v, v ∈ (evaluateByTiers mixedRequest mixedRules).critical_violations ∧
      v.rule_tier = RuleTier.safety ∧ v.blocked = true) ∧
    (evaluateByTiers mixedRequest mixedRules).suggestions = [] :=
  C4_early_termination defaultTierEngines mixedRequest mixedRules rfl
    (by decide) (by decide) rfl (by decide) (by decide)

/-- C1 witness: the statement at the concrete bomb request and at a
concrete Safety-tier rule declaring `user_override=True` whose keyword
matches the content. -/
theorem C1_witness :
    bombViolation ∈ (safetyEvaluate bombRequest).violations ∧
    bombViolation.user_override_allowed = false ∧
    safetyKeywordRule.tier = RuleTier.safety ∧
    evaluateSingleRule safetyKeywordRule
        "text with a forbidden phrase inside".data Option.none
      ≠ Except.ok (some bombViolation) := by
  have hv : (safetyEvaluate bombRequest).violations = [bombViolation] := rfl
  have hmem : bombViolation ∈ (safetyEvaluate bombRequest).violations := by
    rw [hv]
    exact List.mem_singleton_self _
  exact ⟨hmem,
    (C1_safety_override_false bombRequest safetyKeywordRule
      "text with a forbidden phrase inside".data Option.none bombViolation).1 hmem,
    rfl,
    (C1_safety_override_false bombRequest safetyKeywordRule
      "text with a forbidden phrase inside".data Option.none bombViolation).2 rfl⟩

/-! ## C10 -/

/-- Two pattern lists of keywords equal up to letter case: pointwise
equality of the lowered keywords. -/
def patternCaseVariant (p q : RulePattern) : Prop :=
  List.Forall₂ (fun a b => pyLower a = pyLower b) p.keywords q.keywords

theorem find?_isSome_congr {α β : Type} {p : α → Bool} {q : β → Bool} :
    ∀ {l1 : List α} {l2 : List β},
      List.Forall₂ (fun a b => p a = q b) l1 l2 →
      (l1.find? p).isSome = (l2.find? q).isSome := by
  intro l1 l2 h
  induction h with
  | nil => rfl
  | @cons a b l1 l2 hab _ ih =>
    rw [List.find?_cons, List.find?_cons]
    cases hqb : q b with
    | true =>
      have hpa : p a = true := hab.trans hqb
      rw [hpa]
      rfl
    | false =>
      have hpa : p a = false := hab.trans hqb
      rw [hpa]
      exact ih

theorem findSome?_isSome_congr {α β γ δ : Type} {f : α → Option γ} {g : β → Option δ} :
    ∀ {l1 : List α} {l2 : List β},
      List.Forall₂ (fun a b => (f a).isSome = (g b).isSome) l1 l2 →
      (l1.findSome? f).isSome = (l2.findSome? g).isSome := by
  intro l1 l2 h
  induction h with
  | nil => rfl
  | @cons a b l1 l2 hab _ ih =>
    rw [List.findSome?_cons, List.findSome?_cons]
    cases hfa : f a with
    | some x =>
      cases hgb : g b with
      | some y => rfl
      | none =>
        rw [hfa, hgb] at hab
        exact Bool.noConfusion hab
    | none =>
      cases hgb : g b with
      | some y =>
        rw [hfa, hgb] at hab
        exact Bool.noConfusion hab
      | none => exact ih

theorem findMatchedKeyword_isSome_congr {c c2 : Str}
    {ps ps2 : List RulePattern}
    (hc : pyLower c2 = pyLower c)
    (hp : List.Forall₂ patternCaseVariant ps ps2) :
    (findMatchedKeyword ps c).isSome = (findMatchedKeyword ps2 c2).isSome := by
  unfold findMatchedKeyword
  refine findSome?_isSome_congr (hp.imp ?_)
  intro p p2 hkw
  refine find?_isSome_congr (hkw.imp ?_)
  intro a b hab
  rw [hab, hc]

theorem isSome_option_map {α β : Type} (f : α → β) (o : Option α) :
    (Option.map f o).isSome = o.isSome := by
  cases o <;> rfl


/-- C10: keyword matching is case-insensitive — replacing the content by
any string with the same lowered form and the rule's keywords by
keywords with the same lowered form leaves the outcome of single-rule
evaluation (whose match branch raises, see `evaluateSingleRule`) and the
match/no-match decision of each enforcement handler unchanged. -/
theorem C10_case_insensitive (rule : Rule) (ps2 : List RulePattern)
    (c c2 : Str) (context : Option RuleContext) (error : Str)
    (hc : pyLower c2 = pyLower c)
    (hp : List.Forall₂ patternCaseVariant rule.patterns ps2) :
    evaluateSingleRule rule c context
      = evaluateSingleRule { rule with patterns := ps2 } c2 context ∧
    (strictEnforce rule c).isSome
      = (strictEnforce { rule with patterns := ps2 } c2).isSome ∧
    (advisoryEnforce rule c).isSome
      = (advisoryEnforce { rule with patterns := ps2 } c2).isSome ∧
    (adaptiveEnforce rule c context).isSome
      = (adaptiveEnforce { rule with patterns := ps2 } c2 context).isSome ∧
    (fallbackHandle rule c error).isSome
      = (fallbackHandle { rule with patterns := ps2 } c2 error).isSome := by
  have hfind : (findMatchedKeyword rule.patterns c).isSome
      = (findMatchedKeyword ps2 c2).isSome :=
    findMatchedKeyword_isSome_congr hc hp
  refine ⟨?_, ?_, ?_, ?_, ?_⟩
  · rw [evaluateSingleRule_eq, evaluateSingleRule_eq]
    cases context with
    | none =>
      dsimp only
      cases h1 : findMatchedKeyword rule.patterns c with
      | none =>
        cases h2 : findMatchedKeyword ps2 c2 with
        | none => simp [h1, h2]
        | some kw2 =>
          rw [h1, h2] at hfind
          simp at hfind
      | some kw =>
        cases h2 : findMatchedKeyword ps2 c2 with
        | none =>
          rw [h1, h2] at hfind
          simp at hfind
        | some kw2 => simp [h1, h2]
    | some cc =>
      dsimp only
      have happ : isApplicableToContext { rule with patterns := ps2 }
          (getEffectiveContext cc) = isApplicableToContext rule (getEffectiveContext cc) := rfl
      rw [happ]
      cases happ2 : isApplicableToContext rule (getEffectiveContext cc) with
      | error e => simp [happ2]
      | ok b =>
        cases b with
        | false => simp [happ2]
        | true =>
          cases h1 : findMatchedKeyword rule.patterns c with
          | none =>
            cases h2 : findMatchedKeyword ps2 c2 with
            | none => simp [happ2, h1, h2]
            | some kw2 =>
              rw [h1, h2] at hfind
              simp at hfind
          | some kw =>
            cases h2 : findMatchedKeyword ps2 c2 with
            | none =>
              rw [h1, h2] at hfind
              simp at hfind
            | some kw2 => simp [happ2, h1, h2]
  · unfold strictEnforce
    rw [isSome_option_map, isSome_option_map]
    exact hfind
  · unfold advisoryEnforce
    rw [isSome_option_map, isSome_option_map]
    exact hfind
  · unfold adaptiveEnforce
    cases hskip : adaptiveSkip context with
    | true =>
      rw [if_pos rfl, if_pos rfl]
    | false =>
      rw [if_neg Bool.false_ne_true, if_neg Bool.false_ne_true,
          isSome_option_map, isSome_option_map]
      exact hfind
  · rfl

/-- Rule variant of `safetyKeywordRule` whose keyword differs only in
letter case. -/
def shoutingPatterns : List RulePattern :=
  [{ keywords := ["FORBIDDEN Phrase".data] }]

/-- C10 witness: the decision invariance at a concrete case-variant pair
of contents and keyword lists. -/
theorem C10_witness :
    pyLower "A Forbidden PHRASE".data = pyLower "a forbidden phrase".data ∧
    (evaluateSingleRule safetyKeywordRule "a forbidden phrase".data Option.none
      = evaluateSingleRule { safetyKeywordRule with patterns := shoutingPatterns }
          "A Forbidden PHRASE".data Option.none ∧
     (strictEnforce safetyKeywordRule "a forbidden phrase".data).isSome
      = (strictEnforce { safetyKeywordRule with patterns := shoutingPatterns }
          "A Forbidden PHRASE".data).isSome ∧
     (advisoryEnforce safetyKeywordRule "a forbidden phrase".data).isSome
      = (advisoryEnforce { safetyKeywordRule with patterns := shoutingPatterns }
          "A Forbidden PHRASE".data).isSome ∧
     (adaptiveEnforce safetyKeywordRule "a forbidden phrase".data Option.none).isSome
      = (adaptiveEnforce { safetyKeywordRule with patterns := shoutingPatterns }
          "A Forbidden PHRASE".data Option.none).isSome ∧
     (fallbackHandle safetyKeywordRule "a forbidden phrase".data "err".data).isSome
      = (fallbackHandle { safetyKeywordRule with patterns := shoutingPatterns }
          "A Forbidden PHRASE".data "err".data).isSome) :=
  ⟨by decide,
   C10_case_insensitive safetyKeywordRule shoutingPatterns
     "a forbidden phrase".data "A Forbidden PHRASE".data Option.none "err".data
     (by decide)
     (List.Forall₂.cons (List.Forall₂.cons (by decide) List.Forall₂.nil)
       List.Forall₂.nil)⟩

end REP
